import Mathlib

/-
Verification of the smart-financial-coach pipeline (src/analysis.py,
src/forecasting.py, src/insights.py, src/app.py).

Modelling conventions:
* currency amounts and profile figures are rationals (the source uses
  Python numbers; rationals model the arithmetic exactly);
* a transaction table is a list of records with fields date, category,
  amount, as loaded by load_transactions;
* the pandas groupby-sum of categorize_spending is modelled as the list
  of (category, fiber sum) pairs over the distinct categories;
* the rounding of Python round(x, 1) is round-half-to-even, made exact
  on rationals;
* the None sentinel of predict_goal_eta is Option.none;
* Python string interpolation is modelled by explicit decimal formatting
  functions (exact for the values the program produces).
-/

namespace SmartFinancialCoach

/-- One ledger record with fields date, category, amount
(the table rows read by load_transactions in src/analysis.py). -/
structure Transaction where
  date : String
  category : String
  amount : ℚ
deriving DecidableEq, Repr

/-- src/analysis.py categorize_spending: groupby category, sum amount.
The resulting mapping is the list of (category, summed amount) pairs over
the distinct categories of the table. -/
def categorize_spending (transactions : List Transaction) : List (String × ℚ) :=
  ((transactions.map fun t => t.category).dedup).map
    fun c => (c, ((transactions.filter fun t => t.category == c).map fun t => t.amount).sum)

/-- src/analysis.py total_spent: sum of the amount column. -/
def total_spent (transactions : List Transaction) : ℚ :=
  (transactions.map fun t => t.amount).sum

/-- src/analysis.py calc_savings:
expenses = total_spent + recurring_bills; savings = income - expenses;
return savings if savings > 0 else 0. -/
def calc_savings (income recurring_bills : ℚ) (transactions : List Transaction) : ℚ :=
  let expenses := total_spent transactions + recurring_bills
  let savings := income - expenses
  if savings > 0 then savings else 0

/-- Round a rational to the nearest integer, ties to the even integer
(the rounding rule of the Python built-in round). -/
def roundHalfEven (x : ℚ) : ℤ :=
  let f := ⌊x⌋
  if x - f < 1/2 then f
  else if 1/2 < x - f then f + 1
  else if f % 2 = 0 then f else f + 1

/-- Python round(x, 1): round to one decimal place. -/
def round1 (x : ℚ) : ℚ :=
  (roundHalfEven (10 * x) : ℚ) / 10

/-- src/forecasting.py predict_goal_eta: None when monthly_savings <= 0,
otherwise round((goal_amount - current_savings) / monthly_savings, 1). -/
def predict_goal_eta (goal_amount current_savings monthly_savings : ℚ) : Option ℚ :=
  if monthly_savings ≤ 0 then none
  else
    let months_needed := (goal_amount - current_savings) / monthly_savings
    some (round1 months_needed)

/-- Decimal rendering of a rational to two places (Python format .2f),
exact whenever the value has at most two decimal places. -/
def format2 (q : ℚ) : String :=
  let n := roundHalfEven (100 * q)
  let sign := if n < 0 then "-" else ""
  let m := n.natAbs
  let r := m % 100
  sign ++ toString (m / 100) ++ "." ++ (if r < 10 then "0" else "") ++ toString r

/-- Decimal rendering of a rational to one place (Python str of a float
already rounded to one decimal, as produced by predict_goal_eta). -/
def format1 (q : ℚ) : String :=
  let n := roundHalfEven (10 * q)
  let sign := if n < 0 then "-" else ""
  let m := n.natAbs
  sign ++ toString (m / 10) ++ "." ++ toString (m % 10)

/-- Python string interpolation of the goal amount. The program only ever
passes the integer 3000 (src/app.py), rendered as its digits; the
non-integer branch falls back to two-place formatting. -/
def formatAmount (q : ℚ) : String :=
  if q.den = 1 then toString q.num else format2 q

/-- The overspending warning of src/insights.py. -/
def overspendWarning : String :=
  "You\x27re currently overspending. Consider cutting back in one category."

/-- The saved-amount line of src/insights.py. -/
def savedLine (savings : ℚ) : String :=
  "You saved $" ++ format2 savings ++ " this month."

/-- The unreachable-goal line of src/insights.py. -/
def unreachableLine : String :=
  "At your current spending rate, you won’t reach your goal."

/-- The goal-ETA line of src/insights.py. -/
def etaLine (goal_amount months_eta : ℚ) : String :=
  "At this rate, you\x27ll reach your $" ++ formatAmount goal_amount ++
    " goal in about " ++ format1 months_eta ++ " months."

/-- The fixed nudge string of src/insights.py. -/
def staticNudge : String :=
  "Cutting $50 from dining out saves ~1 week toward your goal."

/-- src/insights.py generate_insights: build the insight list by the three
appends of the source (status line, goal line, static nudge). -/
def generate_insights (goal_amount savings monthly_savings : ℚ)
    (months_eta : Option ℚ) : List String :=
  let insights : List String := []
  let insights := insights ++
    [if savings ≤ 0 then overspendWarning else savedLine savings]
  let insights := insights ++
    [match months_eta with
     | none => unreachableLine
     | some eta => etaLine goal_amount eta]
  insights ++ [staticNudge]

/-- The wiring of src/app.py main, with the hardcoded profile generalised:
savings = calc_savings(income, recurring_bills, transactions);
months_eta = predict_goal_eta(goal_amount, current_savings, savings);
generate_insights(goal_amount, savings, savings, months_eta). -/
def pipeline_insights (income recurring_bills goal_amount current_savings : ℚ)
    (transactions : List Transaction) : List String :=
  let savings := calc_savings income recurring_bills transactions
  let months_eta := predict_goal_eta goal_amount current_savings savings
  generate_insights goal_amount savings savings months_eta

/-- A concrete two-row table summing to 1000, for the demo scenario. -/
def demo_transactions : List Transaction :=
  [⟨"2025-09-01", "Dining", 600⟩, ⟨"2025-09-02", "Groceries", 400⟩]

/-- The per-category fiber sum of a transaction table: the value stored by
categorize_spending at one category key. -/
def fiberSum (transactions : List Transaction) (c : String) : ℚ :=
  ((transactions.filter fun t => t.category == c).map fun t => t.amount).sum

section Helpers

/-- calc_savings as a max: the guarded return of src/analysis.py line 16
is exactly a clamp at zero. -/
lemma calc_savings_as_max (income recurring_bills : ℚ) (ts : List Transaction) :
    calc_savings income recurring_bills ts
      = max (income - (total_spent ts + recurring_bills)) 0 := by
  unfold calc_savings
  rcases le_or_lt (income - (total_spent ts + recurring_bills)) 0 with h | h
  · rw [if_neg (not_lt.mpr h), max_eq_right h]
  · rw [if_pos h, max_eq_left h.le]

/-- The clamp makes calc_savings non-negative. -/
lemma calc_savings_nonneg (income recurring_bills : ℚ) (ts : List Transaction) :
    0 ≤ calc_savings income recurring_bills ts := by
  rw [calc_savings_as_max]
  exact le_max_right _ _

/-- The insight list built by generate_insights, written as a literal. -/
lemma generate_insights_eq (g s m : ℚ) (e : Option ℚ) :
    generate_insights g s m e =
      [if s ≤ 0 then overspendWarning else savedLine s,
       (match e with
        | none => unreachableLine
        | some eta => etaLine g eta),
       staticNudge] := rfl

/-- Rounding half-to-even keeps non-positive rationals non-positive. -/
lemma roundHalfEven_nonpos (t : ℚ) (ht : t ≤ 0) : roundHalfEven t ≤ 0 := by
  unfold roundHalfEven
  have hf : (⌊t⌋ : ℚ) ≤ t := Int.floor_le t
  have hf0 : ⌊t⌋ ≤ 0 := by exact_mod_cast hf.trans ht
  dsimp only
  split_ifs with h1 h2 h3
  · exact hf0
  · have hlt : (⌊t⌋ : ℚ) < 0 := by linarith
    have : ⌊t⌋ < 0 := by exact_mod_cast hlt
    omega
  · exact hf0
  · have hge : (1:ℚ)/2 ≤ t - ⌊t⌋ := not_lt.mp h1
    have hlt : (⌊t⌋ : ℚ) < 0 := by linarith
    have : ⌊t⌋ < 0 := by exact_mod_cast hlt
    omega

/-- Rounding to one decimal keeps non-positive rationals non-positive. -/
lemma round1_nonpos (x : ℚ) (hx : x ≤ 0) : round1 x ≤ 0 := by
  unfold round1
  have h10 : (10:ℚ) * x ≤ 0 := by linarith
  have h : (roundHalfEven (10 * x) : ℚ) ≤ 0 := by
    exact_mod_cast roundHalfEven_nonpos _ h10
  exact div_nonpos_iff.mpr (Or.inr ⟨h, by norm_num⟩)

/-- Two strings differ when a character inside the prefix of the first
differs from the corresponding character of the second. -/
lemma ne_of_nthChar (a x b : String) (n : ℕ)
    (h₁ : n < a.data.length)
    (h₂ : a.data[n]? ≠ b.data[n]?) :
    a ++ x ≠ b := by
  intro h
  apply h₂
  have hd : (a ++ x).data = b.data := congrArg String.data h
  rw [String.data_append] at hd
  rw [← hd, List.getElem?_append_left h₁]

/-- The saved-amount line never coincides with the overspending warning. -/
lemma savedLine_ne_overspend (s : ℚ) : savedLine s ≠ overspendWarning := by
  unfold savedLine overspendWarning
  rw [String.append_assoc]
  exact ne_of_nthChar _ _ _ 3 (by decide) (by decide)

/-- The goal-ETA line never coincides with the unreachable-goal line. -/
lemma etaLine_ne_unreachable (g e : ℚ) : etaLine g e ≠ unreachableLine := by
  unfold etaLine unreachableLine
  rw [String.append_assoc, String.append_assoc, String.append_assoc]
  exact ne_of_nthChar _ _ _ 3 (by decide) (by decide)

/-- Summing an indicator over a duplicate-free key list that contains the
marked key yields the marked value. -/
lemma sum_map_ite (ks : List String) (a : String) (v : ℚ)
    (hnd : ks.Nodup) (ha : a ∈ ks) :
    (ks.map fun c => if c = a then v else 0).sum = v := by
  induction ks with
  | nil => cases ha
  | cons b ks ih =>
    rcases List.mem_cons.mp ha with rfl | ha2
    · simp only [List.map_cons, List.sum_cons]
      have hnot : a ∉ ks := (List.nodup_cons.mp hnd).1
      have hz : (ks.map fun c => if c = a then v else 0).sum = 0 := by
        apply List.sum_eq_zero
        intro x hx
        obtain ⟨c, hc, rfl⟩ := List.mem_map.mp hx
        rw [if_neg]
        rintro rfl
        exact hnot hc
      simp [hz]
    · have hb : b ≠ a := by
        rintro rfl
        exact (List.nodup_cons.mp hnd).1 ha2
      simp only [List.map_cons, List.sum_cons, if_neg hb]
      rw [zero_add]
      exact ih (List.nodup_cons.mp hnd).2 ha2

/-- A list sum of pointwise additions splits into two sums. -/
lemma sum_map_add_q (ks : List String) (f g : String → ℚ) :
    (ks.map fun c => f c + g c).sum = (ks.map f).sum + (ks.map g).sum := by
  induction ks with
  | nil => simp
  | cons b ks ih =>
    simp only [List.map_cons, List.sum_cons, ih]
    ring

/-- Consing a transaction adds its amount to exactly the fiber of its
category and leaves every other fiber unchanged. -/
lemma fiberSum_cons (t : Transaction) (ts : List Transaction) (c : String) :
    fiberSum (t :: ts) c = (if c = t.category then t.amount else 0) + fiberSum ts c := by
  unfold fiberSum
  by_cases h : t.category = c
  · rw [List.filter_cons_of_pos (by simpa using h), List.map_cons, List.sum_cons,
      if_pos h.symm]
  · rw [List.filter_cons_of_neg (by simpa using h),
      if_neg (fun hc => h hc.symm), zero_add]

/-- Fiber sums over a duplicate-free key list that covers every category
of the table add up to the total of the table. -/
lemma sum_fiberSum (ks : List String) (ts : List Transaction)
    (hnd : ks.Nodup) (hcov : ∀ t ∈ ts, t.category ∈ ks) :
    (ks.map fun c => fiberSum ts c).sum = total_spent ts := by
  induction ts with
  | nil =>
    simp only [total_spent, List.map_nil, List.sum_nil]
    apply List.sum_eq_zero
    intro x hx
    obtain ⟨c, _, rfl⟩ := List.mem_map.mp hx
    rfl
  | cons t ts ih =>
    have hcov2 : ∀ u ∈ ts, u.category ∈ ks :=
      fun u hu => hcov u (List.mem_cons_of_mem t hu)
    have hmem : t.category ∈ ks := hcov t (List.mem_cons_self t ts)
    calc (ks.map fun c => fiberSum (t :: ts) c).sum
        = (ks.map fun c => (if c = t.category then t.amount else 0) + fiberSum ts c).sum := by
          simp only [fiberSum_cons]
      _ = (ks.map fun c => if c = t.category then t.amount else 0).sum
            + (ks.map fun c => fiberSum ts c).sum := sum_map_add_q ks _ _
      _ = t.amount + total_spent ts := by
          rw [sum_map_ite ks t.category t.amount hnd hmem, ih hcov2]
      _ = total_spent (t :: ts) := by
          simp [total_spent]

/-- The values of categorize_spending are exactly the fiber sums over the
distinct categories of the table. -/
lemma categorize_spending_values (ts : List Transaction) :
    (categorize_spending ts).map Prod.snd
      = ((ts.map fun t => t.category).dedup).map fun c => fiberSum ts c := by
  unfold categorize_spending fiberSum
  rw [List.map_map]
  rfl

end Helpers

section Claims

/-- C1: for every non-empty transaction table, the sum of the values of the
category-totals mapping produced by categorize_spending equals the value
produced by total_spent on the same table (category partition law). -/
theorem categorize_partition (ts : List Transaction) (hne : ts ≠ []) :
    ((categorize_spending ts).map Prod.snd).sum = total_spent ts := by
  rw [categorize_spending_values]
  exact sum_fiberSum _ _ (List.nodup_dedup _)
    (fun t ht => List.mem_dedup.mpr (List.mem_map_of_mem _ ht))

/-- Witness for C1 at the concrete two-row demo table. -/
theorem categorize_partition_witness :
    demo_transactions ≠ [] ∧
    ((categorize_spending demo_transactions).map Prod.snd).sum
      = total_spent demo_transactions :=
  ⟨by simp [demo_transactions],
   categorize_partition demo_transactions (by simp [demo_transactions])⟩

/-- C2: calc_savings returns max(income - (total_spent + recurring_bills), 0):
income minus the sum of total spending and recurring bills when positive,
clamped to exactly 0 otherwise; the result is never negative. -/
theorem calc_savings_clamped_formula (income recurring_bills : ℚ)
    (ts : List Transaction) :
    calc_savings income recurring_bills ts
      = max (income - (total_spent ts + recurring_bills)) 0 ∧
    0 ≤ calc_savings income recurring_bills ts :=
  ⟨calc_savings_as_max income recurring_bills ts,
   calc_savings_nonneg income recurring_bills ts⟩

/-- C3: predict_goal_eta returns the unreachable sentinel (none) if and only
if monthly_savings is non-positive, and for positive monthly_savings it
returns (goal_amount - current_savings) / monthly_savings rounded to one
decimal place. -/
theorem predict_goal_eta_contract (g c m : ℚ) :
    (predict_goal_eta g c m = none ↔ m ≤ 0) ∧
    (0 < m → predict_goal_eta g c m = some (round1 ((g - c) / m))) := by
  constructor
  · unfold predict_goal_eta
    by_cases hm : m ≤ 0
    · rw [if_pos hm]
      simp [hm]
    · rw [if_neg hm]
      simp [hm]
  · intro hm
    unfold predict_goal_eta
    rw [if_neg (not_le.mpr hm)]

/-- Witness for C3 at a concrete positive rate. -/
theorem predict_goal_eta_contract_witness :
    (0:ℚ) < 2 ∧ predict_goal_eta 3000 500 2 = some (round1 ((3000 - 500) / 2)) :=
  ⟨by norm_num, (predict_goal_eta_contract 3000 500 2).2 (by norm_num)⟩

/-- C4: generate_insights returns a list of exactly 3 strings in fixed
order: a status line (overspending warning when savings is non-positive,
otherwise the two-decimal saved-amount line), a goal-progress line (the
unreachable-goal message when months_eta is the sentinel, otherwise the
line with the goal amount and the ETA), and last the fixed static nudge. -/
theorem generate_insights_shape (g s m : ℚ) (e : Option ℚ) :
    generate_insights g s m e =
      [if s ≤ 0 then overspendWarning else savedLine s,
       (match e with
        | none => unreachableLine
        | some eta => etaLine g eta),
       staticNudge] ∧
    (generate_insights g s m e).length = 3 :=
  ⟨generate_insights_eq g s m e, rfl⟩

/-- C5 counterexample: the claim that predict_goal_eta returns a strictly
negative number whenever current_savings exceeds goal_amount and
monthly_savings is positive fails: at goal 3000, savings 3001, rate 100
the quotient -1/100 rounds to 0, which is not negative. -/
theorem predict_goal_eta_overshoot_cex :
    ¬ (∀ g c m : ℚ, g < c → 0 < m →
        ∀ q, predict_goal_eta g c m = some q → q < 0) := by
  intro h
  have hval : predict_goal_eta 3000 3001 100 = some 0 := by
    unfold predict_goal_eta
    rw [if_neg (by norm_num)]
    have hx : ((3000:ℚ) - 3001) / 100 = -1/100 := by norm_num
    rw [hx]
    unfold round1 roundHalfEven
    norm_num
  have h0 : (0:ℚ) < 0 := h 3000 3001 100 (by norm_num) (by norm_num) 0 hval
  exact absurd h0 (lt_irrefl 0)

/-- C5 amended: with current_savings above goal_amount and a positive
monthly rate, predict_goal_eta returns the rounded value of the negative
quotient (no floor at 0 is applied), and that value is non-positive;
rounding can bring it up to exactly 0. -/
theorem predict_goal_eta_overshoot (g c m : ℚ) (hc : g < c) (hm : 0 < m) :
    predict_goal_eta g c m = some (round1 ((g - c) / m)) ∧
    round1 ((g - c) / m) ≤ 0 := by
  have hx : (g - c) / m < 0 := div_neg_of_neg_of_pos (by linarith) hm
  constructor
  · unfold predict_goal_eta
    rw [if_neg (not_le.mpr hm)]
  · exact round1_nonpos _ hx.le

/-- Witness for C5 amended at goal 3000, savings 4000, rate 100. -/
theorem predict_goal_eta_overshoot_witness :
    (3000:ℚ) < 4000 ∧ (0:ℚ) < 100 ∧
    predict_goal_eta 3000 4000 100 = some (round1 ((3000 - 4000) / 100)) ∧
    round1 ((3000 - 4000) / 100) ≤ 0 := by
  obtain ⟨h1, h2⟩ := predict_goal_eta_overshoot 3000 4000 100 (by norm_num) (by norm_num)
  exact ⟨by norm_num, by norm_num, h1, h2⟩

/-- C6: calc_savings is monotonically non-decreasing in income and
non-increasing in total spending and in recurring_bills, and the result is
always non-negative. -/
theorem calc_savings_monotone (i i2 b b2 : ℚ) (ts ts2 : List Transaction) :
    (i ≤ i2 → calc_savings i b ts ≤ calc_savings i2 b ts) ∧
    (b ≤ b2 → calc_savings i b2 ts ≤ calc_savings i b ts) ∧
    (total_spent ts ≤ total_spent ts2 →
      calc_savings i b ts2 ≤ calc_savings i b ts) ∧
    0 ≤ calc_savings i b ts := by
  refine ⟨?_, ?_, ?_, calc_savings_nonneg i b ts⟩ <;> intro h <;>
    simp only [calc_savings_as_max] <;>
    exact max_le_max (by linarith) le_rfl

/-- Witness for C6 at concrete profiles and tables. -/
theorem calc_savings_monotone_witness :
    (calc_savings 1000 500 [] ≤ calc_savings 2000 500 []) ∧
    (calc_savings 1000 600 [] ≤ calc_savings 1000 500 []) ∧
    (calc_savings 1000 500 demo_transactions ≤ calc_savings 1000 500 []) ∧
    0 ≤ calc_savings 1000 500 [] := by
  obtain ⟨h1, h2, h3, h4⟩ :=
    calc_savings_monotone 1000 2000 500 600 [] demo_transactions
  exact ⟨h1 (by norm_num), h2 (by norm_num),
    h3 (by norm_num [total_spent, demo_transactions]), h4⟩

/-- C7: on the demo scenario (income 4000, recurring bills 500, a table
summing to 1000, goal 3000, current savings 500) the pipeline yields
total_spent 1000, savings 2500, ETA 1.0 month, and the saved-amount and
goal lines of the spec, followed by the static tip. -/
theorem demo_scenario_eval :
    total_spent demo_transactions = 1000 ∧
    calc_savings 4000 500 demo_transactions = 2500 ∧
    predict_goal_eta 3000 500 2500 = some 1 ∧
    generate_insights 3000 2500 2500 (some 1) =
      ["You saved $2500.00 this month.",
       "At this rate, you\x27ll reach your $3000 goal in about 1.0 months.",
       "Cutting $50 from dining out saves ~1 week toward your goal."] := by
  have h1 : total_spent demo_transactions = 1000 := by
    norm_num [total_spent, demo_transactions]
  have h2 : calc_savings 4000 500 demo_transactions = 2500 := by
    rw [calc_savings_as_max, h1]
    norm_num
  have h3 : predict_goal_eta 3000 500 2500 = some 1 := by
    unfold predict_goal_eta
    rw [if_neg (by norm_num)]
    have hx : ((3000:ℚ) - 500) / 2500 = 1 := by norm_num
    rw [hx]
    unfold round1 roundHalfEven
    norm_num
  refine ⟨h1, h2, h3, ?_⟩
  have hf2 : format2 2500 = "2500.00" := by
    unfold format2
    have hr : roundHalfEven (100 * (2500:ℚ)) = 250000 := by
      have hx : (100:ℚ) * 2500 = 250000 := by norm_num
      rw [hx]
      unfold roundHalfEven
      norm_num
    rw [hr]
    rfl
  have hf1 : format1 1 = "1.0" := by
    unfold format1
    have hr : roundHalfEven (10 * (1:ℚ)) = 10 := by
      have hx : (10:ℚ) * 1 = 10 := by norm_num
      rw [hx]
      unfold roundHalfEven
      norm_num
    rw [hr]
    rfl
  have ha : formatAmount 3000 = "3000" := by
    unfold formatAmount
    norm_num
    rfl
  rw [generate_insights_eq, if_neg (by norm_num)]
  dsimp only
  unfold savedLine etaLine staticNudge
  rw [hf2, hf1, ha]
  rfl

/-- C8: on the empty transaction table categorize_spending returns the
empty mapping, total_spent returns 0, and calc_savings returns income
minus recurring bills clamped at 0. -/
theorem empty_table_results (income recurring_bills : ℚ) :
    categorize_spending [] = [] ∧
    total_spent [] = 0 ∧
    calc_savings income recurring_bills [] = max (income - recurring_bills) 0 := by
  refine ⟨rfl, rfl, ?_⟩
  rw [calc_savings_as_max]
  norm_num [total_spent]

/-- C9: generate_insights never reads its monthly_savings parameter: the
output depends only on goal_amount, savings, and months_eta. -/
theorem generate_insights_ignores_monthly (g s m1 m2 : ℚ) (e : Option ℚ) :
    generate_insights g s m1 e = generate_insights g s m2 e := rfl

/-- C10: in the pipeline as wired in src/app.py main, where the clamped
savings value is passed to predict_goal_eta as the monthly rate, the first
insight line is the overspending warning if and only if the second insight
line is the unreachable-goal message. -/
theorem pipeline_branch_coupling
    (income recurring_bills goal_amount current_savings : ℚ)
    (ts : List Transaction) :
    (pipeline_insights income recurring_bills goal_amount current_savings ts)[0]?
        = some overspendWarning ↔
    (pipeline_insights income recurring_bills goal_amount current_savings ts)[1]?
        = some unreachableLine := by
  have hre : pipeline_insights income recurring_bills goal_amount current_savings ts
      = generate_insights goal_amount (calc_savings income recurring_bills ts)
          (calc_savings income recurring_bills ts)
          (predict_goal_eta goal_amount current_savings
            (calc_savings income recurring_bills ts)) := rfl
  rw [hre, generate_insights_eq]
  rcases eq_or_lt_of_le (calc_savings_nonneg income recurring_bills ts) with heq | hpos
  · have hnone : predict_goal_eta goal_amount current_savings
        (calc_savings income recurring_bills ts) = none := by
      unfold predict_goal_eta
      rw [if_pos (le_of_eq heq.symm)]
    rw [hnone, if_pos (le_of_eq heq.symm)]
    simp
  · have hpos2 : ¬ calc_savings income recurring_bills ts ≤ 0 := not_le.mpr hpos
    have hsome : predict_goal_eta goal_amount current_savings
        (calc_savings income recurring_bills ts)
      = some (round1 ((goal_amount - current_savings)
          / calc_savings income recurring_bills ts)) := by
      unfold predict_goal_eta
      rw [if_neg hpos2]
    rw [hsome, if_neg hpos2]
    simp [savedLine_ne_overspend, etaLine_ne_unreachable]

end Claims

end SmartFinancialCoach
